import Mathlib

/-!
Shallow embedding of the sandboxed open logic of `cap-primitives`:

* `src/cap-primitives/src/posish/linux/fs/open_impl.rs` — `open_impl`,
  `open_beneath` and the `racy_asserts`-only `check_open`;
* `src/cap-primitives/src/posish/fs/reopen_impl.rs` — `reopen_impl`.

File handles are modelled as `Nat` file descriptors, paths as `String`s.
The platform (the `openat2` syscall, the manual walker `manually::open`,
`compute_oflags`, `c_str`, `is_same_file`, `file_path`, `open_unchecked`,
`cwd`) lives outside these two source files and is modelled as an explicit
environment; the `openat2` kernel responses are an oracle `Nat → Except
IoError Nat` giving the kernel's answer to the i-th syscall issued during
one `open_beneath` call, which lets the nondeterministic kernel behaviour
(transient `EAGAIN`, permanent `ENOSYS`, …) be quantified over.

The process-wide `static INVALID: AtomicBool` is threaded explicitly: the
embedded `open_beneath` takes the flag's value before the call and returns
its value after the call, together with the trace of issued `openat2`
invocations and of `check_open` cross-checks.
-/

namespace CapStd

/-- The `errno` values distinguished by `open_impl.rs` (via
`posish::io::Errno`), plus a catch-all for every other raw OS error. -/
inductive Errno where
  | AGAIN
  | XDEV
  | PERM
  | NOSYS
  | other (n : Nat)
deriving DecidableEq, Repr

/-- `std::io::Error`: either a raw OS error carrying an errno, or a
constructed error with no errno. `escape_attempt` models the custom error
built by `errors::escape_attempt()`, `could_not_reopen` the
`"Couldn't reopen file"` error of `reopen_impl.rs`; `custom` covers other
constructed errors (e.g. a NUL byte rejected by `c_str`). -/
inductive IoError where
  | errno (e : Errno)
  | escape_attempt
  | could_not_reopen
  | custom (msg : String)
deriving DecidableEq, Repr

/-- `Errno::from_io_error`: recover the raw OS errno of an `io::Error`,
`none` for constructed errors such as `errors::escape_attempt()`. -/
def Errno.from_io_error : IoError → Option Errno
  | .errno e => some e
  | _ => none

/-- `Errno::NOSYS.io_error()` as used at the end of `open_beneath`. -/
def Errno.io_error (e : Errno) : IoError := IoError.errno e

/-- The portable fields of `OpenOptions` used by `open_impl.rs`, plus the
Unix extension field `ext.mode` (the creation-mode permission bits),
flattened to `ext_mode`. -/
structure OpenOptions where
  read : Bool
  write : Bool
  append : Bool
  truncate : Bool
  create : Bool
  create_new : Bool
  ext_mode : Nat
deriving DecidableEq, Repr

/-- `OFlags` is a bitmask (`posish::fs::OFlags`); `contains` is bitwise
containment, which is what the source's two `contains` checks rely on
(`TMPFILE` "may be represented with multiple flags and we need to ensure
they're all set"). -/
def OFlags.contains (bits flag : Nat) : Bool := bits &&& flag == flag

/-- `OFlags::CREATE` (`O_CREAT` on Linux). -/
def O_CREAT : Nat := 0o100

/-- `OFlags::TMPFILE` (`O_TMPFILE` on Linux, which is `__O_TMPFILE |
O_DIRECTORY`, i.e. more than one bit). -/
def O_TMPFILE : Nat := 0o20200000

/-- `ResolveFlags::BENEATH` (`RESOLVE_BENEATH`). -/
def RESOLVE_BENEATH : Nat := 0x08

/-- `ResolveFlags::NO_MAGICLINKS` (`RESOLVE_NO_MAGICLINKS`). -/
def RESOLVE_NO_MAGICLINKS : Nat := 0x02

/-- One invocation of the `openat2` syscall as issued by `open_beneath`:
the start directory handle, the `CString` path, the open flags, the mode
and the resolve flags. -/
structure Oat2Call where
  start : Nat
  path : String
  oflags : Nat
  mode : Nat
  resolve : Nat
deriving DecidableEq, Repr

/-- The collaborators of `open_impl.rs` that live outside the source files
under verification: `compute_oflags` and `c_str` (from the shared posish
fs module), the manual walker `manually::open`, and `is_same_file` (used
only by the `racy_asserts` cross-check). Each is modelled as an abstract
function so that theorems quantify over every possible platform. -/
structure Env where
  compute_oflags : OpenOptions → Except IoError Nat
  c_str : String → Except IoError String
  manually_open : Nat → String → OpenOptions → Except IoError Nat
  is_same_file : Nat → Nat → Except IoError Bool

/-- The options passed by `check_open` to the verifying `manually::open`:
the caller's options with `create`, `create_new` and `truncate` disabled. -/
def check_options (options : OpenOptions) : OpenOptions :=
  { options with create := false, create_new := false, truncate := false }

/-- `check_open` (compiled only under `racy_asserts`): re-resolve with the
manual walker and compare file identities. It "passes" (does not panic)
exactly when `manually::open` succeeds (`expect`), `is_same_file` succeeds
(`unwrap`) and returns `true` (`assert!`). -/
def check_open_pass (env : Env) (start : Nat) (path : String)
    (options : OpenOptions) (file : Nat) : Bool :=
  match env.manually_open start path (check_options options) with
  | .error _ => false
  | .ok check =>
    match env.is_same_file file check with
    | .error _ => false
    | .ok same => same

/-- Result of one embedded `open_beneath` call: the `io::Result`, the value
of the `INVALID` flag after the call, the trace of issued `openat2`
invocations in order, the trace of `check_open` invocations (their
arguments), and whether a `racy_asserts` assertion fired. -/
structure BeneathOut where
  result : Except IoError Nat
  invalid : Bool
  calls : List Oat2Call
  checks : List (Nat × String × OpenOptions)
  panicked : Bool
deriving Repr

/-- The `for _ in 0..4` retry loop of `open_beneath`. `fuel` is the number
of remaining iterations, `i` the index of the next `openat2` response in
the oracle `sys`, `inv` the current `INVALID` value, `acc` the syscalls
issued so far. Falling out of the loop (fuel exhausted, or `break` on
`EPERM`/`ENOSYS`) reaches the trailing `Err(Errno::NOSYS.io_error())`. -/
def beneath_loop (racy : Bool) (env : Env) (sys : Nat → Except IoError Nat)
    (start : Nat) (path : String) (options : OpenOptions) (call : Oat2Call) :
    Nat → Nat → Bool → List Oat2Call → BeneathOut
  | 0, _, inv, acc => ⟨.error (Errno.NOSYS.io_error), inv, acc, [], false⟩
  | fuel + 1, i, inv, acc =>
    match sys i with
    | .ok fd =>
      -- `fs::File::from_into_fd` is the identity on the descriptor here.
      if racy then
        ⟨.ok fd, inv, acc ++ [call], [(start, path, check_options options)],
          ! check_open_pass env start path options fd⟩
      else
        ⟨.ok fd, inv, acc ++ [call], [], false⟩
    | .error err =>
      match Errno.from_io_error err with
      | some .AGAIN =>
        beneath_loop racy env sys start path options call fuel (i + 1) inv (acc ++ [call])
      | some .XDEV => ⟨.error .escape_attempt, inv, acc ++ [call], [], false⟩
      | some .PERM => ⟨.error (Errno.NOSYS.io_error), inv, acc ++ [call], [], false⟩
      | some .NOSYS => ⟨.error (Errno.NOSYS.io_error), true, acc ++ [call], [], false⟩
      | _ => ⟨.error err, inv, acc ++ [call], [], false⟩

/-- The initial value of `static INVALID: AtomicBool = AtomicBool::new(false)`. -/
def INVALID_init : Bool := false

/-- `open_beneath` of `open_impl.rs`. `invalid` is the value of the
`INVALID` flag loaded at entry; `racy` is whether the crate was compiled
with `racy_asserts`. `Mode::from_bits(options.ext.mode & 0o7777).unwrap()`
cannot panic (every bit of `0o7777` is a defined `Mode` bit), so the mode
is embedded as the masked value itself. -/
def open_beneath (racy : Bool) (env : Env) (sys : Nat → Except IoError Nat)
    (invalid : Bool) (start : Nat) (path : String) (options : OpenOptions) :
    BeneathOut :=
  if invalid then
    ⟨.error (Errno.NOSYS.io_error), invalid, [], [], false⟩
  else
    match env.compute_oflags options with
    | .error e => ⟨.error e, invalid, [], [], false⟩
    | .ok oflags =>
      let mode :=
        if OFlags.contains oflags O_CREAT || OFlags.contains oflags O_TMPFILE then
          options.ext_mode &&& 0o7777
        else 0
      match env.c_str path with
      | .error e => ⟨.error e, invalid, [], [], false⟩
      | .ok path_c_str =>
        beneath_loop racy env sys start path options
          ⟨start, path_c_str, oflags, mode, RESOLVE_BENEATH ||| RESOLVE_NO_MAGICLINKS⟩
          4 0 invalid []

/-- `open_impl` of `open_impl.rs`: call `open_beneath`; if that returned an
error whose errno is `ENOSYS`, return `manually::open` on the same inputs,
otherwise return the result unchanged. -/
def open_impl (racy : Bool) (env : Env) (sys : Nat → Except IoError Nat)
    (invalid : Bool) (start : Nat) (path : String) (options : OpenOptions) :
    Except IoError Nat :=
  let result := (open_beneath racy env sys invalid start path options).result
  match result with
  | .error err =>
    if Errno.from_io_error err = some .NOSYS then
      env.manually_open start path options
    else result
  | .ok _ => result

/-- The collaborators of `reopen_impl.rs`, which are not among the source
files under verification. `file_path` is the platform handle-to-path
query ("query filesystem path of an open handle (where available)");
`open_unchecked` performs an open of a path relative to a directory handle
directly, with no sandboxed resolution; `cwd` is the process's
current-working-directory handle; `resolve_rel` is the sandboxed resolver
on relative paths (used only to state what re-validation would mean). -/
structure REnv where
  file_path : Nat → Option String
  open_unchecked : Nat → String → OpenOptions → Except IoError Nat
  resolve_rel : Nat → String → OpenOptions → Except IoError Nat
  cwd : Nat

/-- A path is absolute when it begins with `/` (Unix `Path::is_absolute`). -/
def is_absolute (p : String) : Bool := p.data.head? == some '/'

/-- Modelled from the spec: the sandboxed path resolver, as far as the spec
pins it down for this comparison — "an absolute path is always rejected"
(§3 Path invariants; rejection of an out-of-subtree path is
`EscapeAttempt`), while resolution of a relative path beneath the given
capability is the abstract walker `resolve_rel`. This is the spec-side
definition used to state what "re-validated by resolution" would mean for
`reopen_impl`; it is not part of the source under `src/`. -/
def resolve_spec (env : REnv) (cap : Nat) (path : String)
    (options : OpenOptions) : Except IoError Nat :=
  if is_absolute path then .error .escape_attempt
  else env.resolve_rel cap path options

/-- `reopen_impl` of `reopen_impl.rs`: recover a path from the handle; on
success open that path via `open_unchecked` relative to `cwd()` with the
new options; otherwise fail with the `"Couldn't reopen file"` error. -/
def reopen_impl (env : REnv) (file : Nat) (options : OpenOptions) :
    Except IoError Nat :=
  match env.file_path file with
  | some path => env.open_unchecked env.cwd path options
  | none => .error .could_not_reopen

/-- Read/no-creation options used to exercise the theorems. -/
def demoOptions : OpenOptions := ⟨true, false, false, false, false, false, 0o644⟩

/-- Options requesting creation, with mode bits above `0o7777` set. -/
def demoCreateOptions : OpenOptions := ⟨true, true, false, false, true, false, 0o170644⟩

/-- A concrete platform for witnesses: `compute_oflags` maps `create` to
`O_CREAT`, `c_str` is the identity, the manual walker always opens fd 7,
and `is_same_file` compares descriptors. -/
def demoEnv : Env :=
  { compute_oflags := fun o => .ok (if o.create then O_CREAT else 0)
    c_str := fun p => .ok p
    manually_open := fun _ _ _ => .ok 7
    is_same_file := fun a b => .ok (a == b) }

/-- Kernel oracle: every `openat2` succeeds with fd 9. -/
def sysOk : Nat → Except IoError Nat := fun _ => .ok 9

/-- Kernel oracle: every `openat2` fails with `EAGAIN`. -/
def sysAgain : Nat → Except IoError Nat := fun _ => .error (.errno .AGAIN)

/-- Kernel oracle: every `openat2` fails with `EXDEV`. -/
def sysXdev : Nat → Except IoError Nat := fun _ => .error (.errno .XDEV)

/-- Kernel oracle: every `openat2` fails with `EPERM`. -/
def sysPerm : Nat → Except IoError Nat := fun _ => .error (.errno .PERM)

/-- Kernel oracle: every `openat2` fails with `ENOSYS`. -/
def sysNosys : Nat → Except IoError Nat := fun _ => .error (.errno .NOSYS)

/-- A concrete platform for the reopen theorems: handle 5 recovers the
absolute path `/etc/passwd` (handle-to-path queries return absolute
paths), handle 6 recovers nothing, `open_unchecked` opens fd 42 directly,
and the abstract relative resolver opens fd 99. -/
def demoREnv : REnv :=
  { file_path := fun f => if f == 5 then some "/etc/passwd" else none
    open_unchecked := fun _ _ _ => .ok 42
    resolve_rel := fun _ _ _ => .ok 99
    cwd := 1 }

theorem beneath_loop_skip_agains (racy : Bool) (env : Env) (sys : Nat → Except IoError Nat)
    (start : Nat) (path : String) (options : OpenOptions) (call : Oat2Call) :
    ∀ (k fuel i : Nat) (inv : Bool) (acc : List Oat2Call),
      k ≤ fuel →
      (∀ j, j < k → sys (i + j) = .error (.errno .AGAIN)) →
      beneath_loop racy env sys start path options call fuel i inv acc =
        beneath_loop racy env sys start path options call (fuel - k) (i + k) inv
          (acc ++ List.replicate k call) := by
  intro k
  induction k with
  | zero => intro fuel i inv acc _ _; simp
  | succ k ih =>
    intro fuel i inv acc hk hag
    obtain ⟨f, rfl⟩ : ∃ f, fuel = f + 1 := ⟨fuel - 1, by omega⟩
    have h0 : sys i = .error (.errno .AGAIN) := by
      have := hag 0 (Nat.succ_pos k); simpa using this
    have step : beneath_loop racy env sys start path options call (f + 1) i inv acc =
        beneath_loop racy env sys start path options call f (i + 1) inv (acc ++ [call]) := by
      simp [beneath_loop, h0, Errno.from_io_error]
    rw [step, ih f (i + 1) inv (acc ++ [call]) (by omega)
      (fun j hj => by
        have e : i + 1 + j = i + (j + 1) := by omega
        rw [e]; exact hag (j + 1) (by omega))]
    have e1 : f - k = f + 1 - (k + 1) := by omega
    have e2 : i + 1 + k = i + (k + 1) := by omega
    have e3 : (acc ++ [call]) ++ List.replicate k call = acc ++ List.replicate (k + 1) call := by
      simp [List.replicate_succ]
    rw [e1, e2, e3]

theorem beneath_loop_calls_len (racy : Bool) (env : Env) (sys : Nat → Except IoError Nat)
    (start : Nat) (path : String) (options : OpenOptions) (call : Oat2Call) :
    ∀ (fuel i : Nat) (inv : Bool) (acc : List Oat2Call),
      (beneath_loop racy env sys start path options call fuel i inv acc).calls.length ≤
        acc.length + fuel := by
  intro fuel
  induction fuel with
  | zero => intro i inv acc; simp [beneath_loop]
  | succ fuel ih =>
    intro i inv acc
    simp only [beneath_loop]
    cases hs : sys i with
    | ok fd =>
      cases racy <;> simp
    | error err =>
      cases err with
      | errno e =>
        cases e with
        | AGAIN =>
          simp only [Errno.from_io_error]
          have := ih (i + 1) inv (acc ++ [call])
          simp at this ⊢
          omega
        | XDEV => simp [Errno.from_io_error]
        | PERM => simp [Errno.from_io_error]
        | NOSYS => simp [Errno.from_io_error]
        | other n => simp [Errno.from_io_error]
      | escape_attempt => simp [Errno.from_io_error]
      | could_not_reopen => simp [Errno.from_io_error]
      | custom msg => simp [Errno.from_io_error]

theorem beneath_loop_calls_mem (racy : Bool) (env : Env) (sys : Nat → Except IoError Nat)
    (start : Nat) (path : String) (options : OpenOptions) (call : Oat2Call) :
    ∀ (fuel i : Nat) (inv : Bool) (acc : List Oat2Call) (c : Oat2Call),
      c ∈ (beneath_loop racy env sys start path options call fuel i inv acc).calls →
      c ∈ acc ∨ c = call := by
  intro fuel
  induction fuel with
  | zero => intro i inv acc c h; simp [beneath_loop] at h; exact Or.inl h
  | succ fuel ih =>
    intro i inv acc c h
    simp only [beneath_loop] at h
    cases hs : sys i with
    | ok fd =>
      rw [hs] at h
      cases racy <;> simp at h <;> tauto
    | error err =>
      rw [hs] at h
      cases err with
      | errno e =>
        cases e with
        | AGAIN =>
          simp only [Errno.from_io_error] at h
          rcases ih (i + 1) inv (acc ++ [call]) c h with h' | h'
          · simp at h'; tauto
          · exact Or.inr h'
        | XDEV => simp [Errno.from_io_error] at h; tauto
        | PERM => simp [Errno.from_io_error] at h; tauto
        | NOSYS => simp [Errno.from_io_error] at h; tauto
        | other n => simp [Errno.from_io_error] at h; tauto
      | escape_attempt => simp [Errno.from_io_error] at h; tauto
      | could_not_reopen => simp [Errno.from_io_error] at h; tauto
      | custom msg => simp [Errno.from_io_error] at h; tauto

theorem beneath_loop_invalid_mono (racy : Bool) (env : Env) (sys : Nat → Except IoError Nat)
    (start : Nat) (path : String) (options : OpenOptions) (call : Oat2Call) :
    ∀ (fuel i : Nat) (acc : List Oat2Call),
      (beneath_loop racy env sys start path options call fuel i true acc).invalid = true := by
  intro fuel
  induction fuel with
  | zero => intro i acc; simp [beneath_loop]
  | succ fuel ih =>
    intro i acc
    simp only [beneath_loop]
    cases hs : sys i with
    | ok fd => cases racy <;> simp
    | error err =>
      cases err with
      | errno e =>
        cases e with
        | AGAIN => simp only [Errno.from_io_error]; exact ih (i + 1) (acc ++ [call])
        | XDEV => simp [Errno.from_io_error]
        | PERM => simp [Errno.from_io_error]
        | NOSYS => simp [Errno.from_io_error]
        | other n => simp [Errno.from_io_error]
      | escape_attempt => simp [Errno.from_io_error]
      | could_not_reopen => simp [Errno.from_io_error]
      | custom msg => simp [Errno.from_io_error]

theorem beneath_loop_invalid_src (racy : Bool) (env : Env) (sys : Nat → Except IoError Nat)
    (start : Nat) (path : String) (options : OpenOptions) (call : Oat2Call) :
    ∀ (fuel i : Nat) (inv : Bool) (acc : List Oat2Call),
      (beneath_loop racy env sys start path options call fuel i inv acc).invalid = true →
      inv = true ∨ ∃ j, sys j = .error (.errno .NOSYS) := by
  intro fuel
  induction fuel with
  | zero => intro i inv acc h; simp [beneath_loop] at h; exact Or.inl h
  | succ fuel ih =>
    intro i inv acc h
    simp only [beneath_loop] at h
    cases hs : sys i with
    | ok fd =>
      rw [hs] at h
      cases racy <;> simp at h <;> tauto
    | error err =>
      rw [hs] at h
      cases err with
      | errno e =>
        cases e with
        | AGAIN => exact ih (i + 1) inv (acc ++ [call]) h
        | XDEV => simp [Errno.from_io_error] at h; tauto
        | PERM => simp [Errno.from_io_error] at h; tauto
        | NOSYS => exact Or.inr ⟨i, hs⟩
        | other n => simp [Errno.from_io_error] at h; tauto
      | escape_attempt => simp [Errno.from_io_error] at h; tauto
      | could_not_reopen => simp [Errno.from_io_error] at h; tauto
      | custom msg => simp [Errno.from_io_error] at h; tauto

theorem beneath_loop_not_racy (env : Env) (sys : Nat → Except IoError Nat)
    (start : Nat) (path : String) (options : OpenOptions) (call : Oat2Call) :
    ∀ (fuel i : Nat) (inv : Bool) (acc : List Oat2Call),
      (beneath_loop false env sys start path options call fuel i inv acc).checks = [] ∧
      (beneath_loop false env sys start path options call fuel i inv acc).panicked = false := by
  intro fuel
  induction fuel with
  | zero => intro i inv acc; simp [beneath_loop]
  | succ fuel ih =>
    intro i inv acc
    simp only [beneath_loop]
    cases hs : sys i with
    | ok fd => simp
    | error err =>
      cases err with
      | errno e =>
        cases e with
        | AGAIN => simp only [Errno.from_io_error]; exact ih (i + 1) inv (acc ++ [call])
        | XDEV => simp [Errno.from_io_error]
        | PERM => simp [Errno.from_io_error]
        | NOSYS => simp [Errno.from_io_error]
        | other n => simp [Errno.from_io_error]
      | escape_attempt => simp [Errno.from_io_error]
      | could_not_reopen => simp [Errno.from_io_error]
      | custom msg => simp [Errno.from_io_error]

theorem beneath_loop_ok_checks (env : Env) (sys : Nat → Except IoError Nat)
    (start : Nat) (path : String) (options : OpenOptions) (call : Oat2Call) :
    ∀ (fuel i : Nat) (inv : Bool) (acc : List Oat2Call) (f : Nat),
      (beneath_loop true env sys start path options call fuel i inv acc).result = .ok f →
      (beneath_loop true env sys start path options call fuel i inv acc).checks =
        [(start, path, check_options options)] ∧
      (beneath_loop true env sys start path options call fuel i inv acc).panicked =
        ! check_open_pass env start path options f := by
  intro fuel
  induction fuel with
  | zero => intro i inv acc f h; simp [beneath_loop] at h
  | succ fuel ih =>
    intro i inv acc f h
    simp only [beneath_loop] at h ⊢
    cases hs : sys i with
    | ok fd =>
      rw [hs] at h
      simp at h ⊢
      rw [h]
    | error err =>
      rw [hs] at h
      cases err with
      | errno e =>
        cases e with
        | AGAIN =>
          simp only [Errno.from_io_error] at h
          exact ih (i + 1) inv (acc ++ [call]) f h
        | XDEV => simp [Errno.from_io_error] at h
        | PERM => simp [Errno.from_io_error] at h
        | NOSYS => simp [Errno.from_io_error] at h
        | other n => simp [Errno.from_io_error] at h
      | escape_attempt => simp [Errno.from_io_error] at h
      | could_not_reopen => simp [Errno.from_io_error] at h
      | custom msg => simp [Errno.from_io_error] at h

theorem beneath_loop_calls_lower (racy : Bool) (env : Env) (sys : Nat → Except IoError Nat)
    (start : Nat) (path : String) (options : OpenOptions) (call : Oat2Call) :
    ∀ (fuel i : Nat) (inv : Bool) (acc : List Oat2Call),
      acc.length ≤ (beneath_loop racy env sys start path options call fuel i inv acc).calls.length := by
  intro fuel
  induction fuel with
  | zero => intro i inv acc; simp [beneath_loop]
  | succ fuel ih =>
    intro i inv acc
    simp only [beneath_loop]
    cases hs : sys i with
    | ok fd => cases racy <;> simp
    | error err =>
      cases err with
      | errno e =>
        cases e with
        | AGAIN =>
          simp only [Errno.from_io_error]
          have := ih (i + 1) inv (acc ++ [call])
          simp at this
          omega
        | XDEV => simp [Errno.from_io_error]
        | PERM => simp [Errno.from_io_error]
        | NOSYS => simp [Errno.from_io_error]
        | other n => simp [Errno.from_io_error]
      | escape_attempt => simp [Errno.from_io_error]
      | could_not_reopen => simp [Errno.from_io_error]
      | custom msg => simp [Errno.from_io_error]

theorem beneath_loop_calls_pos (racy : Bool) (env : Env) (sys : Nat → Except IoError Nat)
    (start : Nat) (path : String) (options : OpenOptions) (call : Oat2Call) :
    ∀ (fuel i : Nat) (inv : Bool) (acc : List Oat2Call),
      acc.length + 1 ≤ (beneath_loop racy env sys start path options call (fuel + 1) i inv acc).calls.length := by
  intro fuel i inv acc
  simp only [beneath_loop]
  cases hs : sys i with
  | ok fd => cases racy <;> simp
  | error err =>
    cases err with
    | errno e =>
      cases e with
      | AGAIN =>
        simp only [Errno.from_io_error]
        have := beneath_loop_calls_lower racy env sys start path options call fuel (i + 1) inv (acc ++ [call])
        simp at this
        omega
      | XDEV => simp [Errno.from_io_error]
      | PERM => simp [Errno.from_io_error]
      | NOSYS => simp [Errno.from_io_error]
      | other n => simp [Errno.from_io_error]
    | escape_attempt => simp [Errno.from_io_error]
    | could_not_reopen => simp [Errno.from_io_error]
    | custom msg => simp [Errno.from_io_error]

theorem open_beneath_eq_loop (racy : Bool) (env : Env) (sys : Nat → Except IoError Nat)
    (start : Nat) (path : String) (options : OpenOptions) (oflags : Nat) (pcs : String)
    (hco : env.compute_oflags options = .ok oflags) (hcs : env.c_str path = .ok pcs) :
    open_beneath racy env sys false start path options =
      beneath_loop racy env sys start path options
        ⟨start, pcs, oflags,
          (if OFlags.contains oflags O_CREAT || OFlags.contains oflags O_TMPFILE then
            options.ext_mode &&& 0o7777 else 0),
          RESOLVE_BENEATH ||| RESOLVE_NO_MAGICLINKS⟩
        4 0 false [] := by
  simp [open_beneath, hco, hcs]

theorem open_beneath_calls_shape (racy : Bool) (env : Env) (sys : Nat → Except IoError Nat)
    (invalid : Bool) (start : Nat) (path : String) (options : OpenOptions) :
    ∀ c ∈ (open_beneath racy env sys invalid start path options).calls,
      ∃ oflags pcs,
        env.compute_oflags options = .ok oflags ∧ env.c_str path = .ok pcs ∧
        c = ⟨start, pcs, oflags,
          (if OFlags.contains oflags O_CREAT || OFlags.contains oflags O_TMPFILE then
            options.ext_mode &&& 0o7777 else 0),
          RESOLVE_BENEATH ||| RESOLVE_NO_MAGICLINKS⟩ := by
  intro c hc
  cases invalid with
  | true => simp [open_beneath] at hc
  | false =>
    simp only [open_beneath, Bool.false_eq_true, if_false] at hc
    cases hco : env.compute_oflags options with
    | error e => rw [hco] at hc; simp at hc
    | ok oflags =>
      rw [hco] at hc
      cases hcs : env.c_str path with
      | error e => rw [hcs] at hc; simp at hc
      | ok pcs =>
        rw [hcs] at hc
        simp only at hc
        rcases beneath_loop_calls_mem racy env sys start path options _ 4 0 false [] c hc with h | h
        · simp at h
        · exact ⟨oflags, pcs, rfl, rfl, h⟩

theorem open_beneath_invalid_only_nosys (racy : Bool) (env : Env)
    (sys : Nat → Except IoError Nat) (invalid : Bool) (start : Nat) (path : String)
    (options : OpenOptions) :
    (open_beneath racy env sys invalid start path options).invalid = true →
    invalid = true ∨ ∃ j, sys j = .error (.errno .NOSYS) := by
  intro h
  cases invalid with
  | true => exact Or.inl rfl
  | false =>
    simp only [open_beneath, Bool.false_eq_true, if_false] at h
    cases hco : env.compute_oflags options with
    | error e => rw [hco] at h; simp at h
    | ok oflags =>
      rw [hco] at h
      cases hcs : env.c_str path with
      | error e => rw [hcs] at h; simp at h
      | ok pcs =>
        rw [hcs] at h
        simp only at h
        exact beneath_loop_invalid_src racy env sys start path options _ 4 0 false [] h

theorem open_beneath_checks_not_racy (env : Env) (sys : Nat → Except IoError Nat)
    (invalid : Bool) (start : Nat) (path : String) (options : OpenOptions) :
    (open_beneath false env sys invalid start path options).checks = [] ∧
    (open_beneath false env sys invalid start path options).panicked = false := by
  cases invalid with
  | true => simp [open_beneath]
  | false =>
    simp only [open_beneath, Bool.false_eq_true, if_false]
    cases hco : env.compute_oflags options with
    | error e => simp
    | ok oflags =>
      cases hcs : env.c_str path with
      | error e => simp
      | ok pcs =>
        simp only
        exact beneath_loop_not_racy env sys start path options _ 4 0 false []

/-- C1: for every (capability, path, options) input, `open_impl` never
surfaces `ENOSYS` from the native `openat2` path: whenever `open_beneath`
returns an error whose errno is `ENOSYS`, `open_impl` returns the result
of the manual walker `manually::open` on the same inputs. -/
theorem C1_open_impl_absorbs_enosys (racy : Bool) (env : Env)
    (sys : Nat → Except IoError Nat) (invalid : Bool) (start : Nat) (path : String)
    (options : OpenOptions) (err : IoError)
    (hres : (open_beneath racy env sys invalid start path options).result = .error err)
    (herr : Errno.from_io_error err = some .NOSYS) :
    open_impl racy env sys invalid start path options =
      env.manually_open start path options := by
  simp only [open_impl, hres, herr]
  simp

/-- Witness for C1: with the flag already set, `open_beneath` reports
`ENOSYS` and `open_impl` returns the manual walker's result. -/
theorem C1_witness :
    open_impl false demoEnv sysOk true 3 "a/b" demoOptions =
      demoEnv.manually_open 3 "a/b" demoOptions :=
  C1_open_impl_absorbs_enosys false demoEnv sysOk true 3 "a/b" demoOptions
    (.errno .NOSYS) rfl rfl

/-- C4: the native-support flag is monotonic: `INVALID` starts `false`; if
it is `true`, `open_beneath` issues no syscall, returns `ENOSYS` and
`open_impl` delegates straight to the manual walker; the call never resets
it to `false`; and it becomes `true` only when some kernel response was an
`ENOSYS` error. -/
theorem C4_invalid_flag_monotonic (racy : Bool) (env : Env)
    (sys : Nat → Except IoError Nat) (invalid : Bool) (start : Nat) (path : String)
    (options : OpenOptions) :
    INVALID_init = false
    ∧ open_beneath racy env sys true start path options =
        ⟨.error (Errno.NOSYS.io_error), true, [], [], false⟩
    ∧ open_impl racy env sys true start path options = env.manually_open start path options
    ∧ ((open_beneath racy env sys invalid start path options).invalid = false →
        invalid = false)
    ∧ ((open_beneath racy env sys invalid start path options).invalid = true →
        invalid = true ∨ ∃ j, sys j = .error (.errno .NOSYS)) := by
  refine ⟨rfl, rfl, rfl, ?_, open_beneath_invalid_only_nosys racy env sys invalid start path options⟩
  intro h
  cases hinv : invalid with
  | false => rfl
  | true =>
    rw [hinv] at h
    simp [open_beneath] at h

/-- Witness for C4: concrete instantiation; with the flag set, the syscall
is skipped and the manual walker's result is returned. -/
theorem C4_witness :
    open_impl false demoEnv sysOk true 3 "a/b" demoOptions =
      demoEnv.manually_open 3 "a/b" demoOptions ∧
    (∃ j, sysNosys j = .error (.errno .NOSYS)) := by
  have h := C4_invalid_flag_monotonic false demoEnv sysOk true 3 "a/b" demoOptions
  have h2 := C4_invalid_flag_monotonic false demoEnv sysNosys false 3 "a/b" demoOptions
  refine ⟨h.2.2.1, ?_⟩
  rcases h2.2.2.2.2 (by rfl) with hf | he
  · exact absurd hf (by simp)
  · exact he

/-- C8: when path recovery fails (`file_path` returns `None`),
`reopen_impl` fails with the distinguished "Couldn't reopen file" error
and never returns any handle. -/
theorem C8_reopen_error_without_path (env : REnv) (file : Nat) (options : OpenOptions)
    (h : env.file_path file = none) :
    reopen_impl env file options = .error .could_not_reopen
    ∧ ∀ fd : Nat, reopen_impl env file options ≠ .ok fd := by
  constructor
  · simp [reopen_impl, h]
  · intro fd
    simp [reopen_impl, h]

/-- Witness for C8: handle 6 recovers no path; reopening it fails with the
distinguished error. -/
theorem C8_witness :
    reopen_impl demoREnv 6 demoOptions = .error .could_not_reopen
    ∧ ∀ fd : Nat, reopen_impl demoREnv 6 demoOptions ≠ .ok fd :=
  C8_reopen_error_without_path demoREnv 6 demoOptions rfl

/-- Any `open_beneath` call that passes the flag check and flag-building
issues at least one `openat2` syscall. -/
theorem open_beneath_issues_call (racy : Bool) (env : Env) (sys : Nat → Except IoError Nat)
    (start : Nat) (path : String) (options : OpenOptions) (oflags : Nat) (pcs : String)
    (hco : env.compute_oflags options = .ok oflags) (hcs : env.c_str path = .ok pcs) :
    1 ≤ (open_beneath racy env sys false start path options).calls.length := by
  rw [open_beneath_eq_loop racy env sys start path options oflags pcs hco hcs]
  exact beneath_loop_calls_pos racy env sys start path options
    ⟨start, pcs, oflags,
      (if OFlags.contains oflags O_CREAT || OFlags.contains oflags O_TMPFILE then
        options.ext_mode &&& 0o7777 else 0),
      RESOLVE_BENEATH ||| RESOLVE_NO_MAGICLINKS⟩ 3 0 false []

/-- C2: when the native `openat2` call fails with `EXDEV` during
beneath-root resolution (after any run of transient `EAGAIN` responses),
`open_beneath` returns `errors::escape_attempt()` — not a pass-through I/O
error — the loop stops (no further syscall is issued), and `open_impl`
surfaces the escape-attempt error rather than falling back to the manual
walker. -/
theorem C2_xdev_becomes_escape_attempt (racy : Bool) (env : Env)
    (sys : Nat → Except IoError Nat) (start : Nat) (path : String)
    (options : OpenOptions) (oflags : Nat) (pcs : String) (k : Nat)
    (hco : env.compute_oflags options = .ok oflags) (hcs : env.c_str path = .ok pcs)
    (hk : k < 4)
    (hag : ∀ j, j < k → sys j = .error (.errno .AGAIN))
    (hx : sys k = .error (.errno .XDEV)) :
    (open_beneath racy env sys false start path options).result = .error .escape_attempt
    ∧ (open_beneath racy env sys false start path options).calls.length = k + 1
    ∧ open_impl racy env sys false start path options = .error .escape_attempt := by
  have hloop := open_beneath_eq_loop racy env sys start path options oflags pcs hco hcs
  set call : Oat2Call := ⟨start, pcs, oflags,
    (if OFlags.contains oflags O_CREAT || OFlags.contains oflags O_TMPFILE then
      options.ext_mode &&& 0o7777 else 0),
    RESOLVE_BENEATH ||| RESOLVE_NO_MAGICLINKS⟩ with hcall
  have hskip := beneath_loop_skip_agains racy env sys start path options call k 4 0 false []
    (by omega) (fun j hj => by simpa using hag j hj)
  obtain ⟨m, hm⟩ : ∃ m, 4 - k = m + 1 := ⟨3 - k, by omega⟩
  have hstep : beneath_loop racy env sys start path options call (4 - k) (0 + k) false
      ([] ++ List.replicate k call) =
      ⟨.error .escape_attempt, false, List.replicate k call ++ [call], [], false⟩ := by
    rw [hm]
    simp [beneath_loop, hx, Errno.from_io_error]
  have hout : open_beneath racy env sys false start path options =
      ⟨.error .escape_attempt, false, List.replicate k call ++ [call], [], false⟩ := by
    rw [hloop, hskip, hstep]
  refine ⟨by rw [hout], by rw [hout]; simp, ?_⟩
  simp only [open_impl, hout]
  simp [Errno.from_io_error]

/-- Witness for C2: the first `openat2` reports `EXDEV`; the call returns
the escape-attempt error after exactly one syscall. -/
theorem C2_witness :
    (open_beneath false demoEnv sysXdev false 3 "a/b" demoOptions).result =
      .error .escape_attempt
    ∧ (open_beneath false demoEnv sysXdev false 3 "a/b" demoOptions).calls.length = 0 + 1
    ∧ open_impl false demoEnv sysXdev false 3 "a/b" demoOptions = .error .escape_attempt :=
  C2_xdev_becomes_escape_attempt false demoEnv sysXdev 3 "a/b" demoOptions 0 "a/b" 0
    rfl rfl (by omega) (fun j hj => absurd hj (by omega)) rfl

/-- C5: when the native `openat2` call fails with `EPERM` (after any run of
transient `EAGAIN` responses), `open_beneath` aborts the retry loop
(exactly `k + 1` syscalls were issued), returns `ENOSYS` so that
`open_impl` falls back to the manual walker, and leaves the native-support
flag `false`, so a later call still attempts the native path (it issues at
least one syscall). -/
theorem C5_eperm_fallback_without_marking (racy : Bool) (env : Env)
    (sys : Nat → Except IoError Nat) (start : Nat) (path : String)
    (options : OpenOptions) (oflags : Nat) (pcs : String) (k : Nat)
    (hco : env.compute_oflags options = .ok oflags) (hcs : env.c_str path = .ok pcs)
    (hk : k < 4)
    (hag : ∀ j, j < k → sys j = .error (.errno .AGAIN))
    (hp : sys k = .error (.errno .PERM)) :
    (open_beneath racy env sys false start path options).result = .error (.errno .NOSYS)
    ∧ (open_beneath racy env sys false start path options).invalid = false
    ∧ (open_beneath racy env sys false start path options).calls.length = k + 1
    ∧ open_impl racy env sys false start path options = env.manually_open start path options
    ∧ ∀ sys2 : Nat → Except IoError Nat,
        1 ≤ (open_beneath racy env sys2
          (open_beneath racy env sys false start path options).invalid
          start path options).calls.length := by
  have hloop := open_beneath_eq_loop racy env sys start path options oflags pcs hco hcs
  set call : Oat2Call := ⟨start, pcs, oflags,
    (if OFlags.contains oflags O_CREAT || OFlags.contains oflags O_TMPFILE then
      options.ext_mode &&& 0o7777 else 0),
    RESOLVE_BENEATH ||| RESOLVE_NO_MAGICLINKS⟩ with hcall
  have hskip := beneath_loop_skip_agains racy env sys start path options call k 4 0 false []
    (by omega) (fun j hj => by simpa using hag j hj)
  obtain ⟨m, hm⟩ : ∃ m, 4 - k = m + 1 := ⟨3 - k, by omega⟩
  have hstep : beneath_loop racy env sys start path options call (4 - k) (0 + k) false
      ([] ++ List.replicate k call) =
      ⟨.error (Errno.NOSYS.io_error), false, List.replicate k call ++ [call], [], false⟩ := by
    rw [hm]
    simp [beneath_loop, hp, Errno.from_io_error]
  have hout : open_beneath racy env sys false start path options =
      ⟨.error (Errno.NOSYS.io_error), false, List.replicate k call ++ [call], [], false⟩ := by
    rw [hloop, hskip, hstep]
  refine ⟨by rw [hout]; rfl, by rw [hout], by rw [hout]; simp, ?_, ?_⟩
  · simp only [open_impl, hout]
    simp [Errno.from_io_error, Errno.io_error]
  · intro sys2
    rw [hout]
    exact open_beneath_issues_call racy env sys2 start path options oflags pcs hco hcs

/-- Witness for C5: the first `openat2` reports `EPERM`; `open_impl` falls
back to the manual walker and the flag stays `false`. -/
theorem C5_witness :
    (open_beneath false demoEnv sysPerm false 3 "a/b" demoOptions).result =
      .error (.errno .NOSYS)
    ∧ (open_beneath false demoEnv sysPerm false 3 "a/b" demoOptions).invalid = false
    ∧ (open_beneath false demoEnv sysPerm false 3 "a/b" demoOptions).calls.length = 0 + 1
    ∧ open_impl false demoEnv sysPerm false 3 "a/b" demoOptions =
        demoEnv.manually_open 3 "a/b" demoOptions
    ∧ ∀ sys2 : Nat → Except IoError Nat,
        1 ≤ (open_beneath false demoEnv sys2
          (open_beneath false demoEnv sysPerm false 3 "a/b" demoOptions).invalid
          3 "a/b" demoOptions).calls.length :=
  C5_eperm_fallback_without_marking false demoEnv sysPerm 3 "a/b" demoOptions 0 "a/b" 0
    rfl rfl (by omega) (fun j hj => absurd hj (by omega)) rfl

/-- `open_beneath` never issues more than 4 `openat2` syscalls. -/
theorem open_beneath_calls_le_four (racy : Bool) (env : Env) (sys : Nat → Except IoError Nat)
    (invalid : Bool) (start : Nat) (path : String) (options : OpenOptions) :
    (open_beneath racy env sys invalid start path options).calls.length ≤ 4 := by
  cases invalid with
  | true => simp [open_beneath]
  | false =>
    simp only [open_beneath, Bool.false_eq_true, if_false]
    cases hco : env.compute_oflags options with
    | error e => simp
    | ok oflags =>
      cases hcs : env.c_str path with
      | error e => simp
      | ok pcs =>
        simp only
        refine le_trans (beneath_loop_calls_len racy env sys start path options _ 4 0 false []) ?_
        simp

/-- C3: `open_beneath` issues the native syscall at most 4 times; all
issued calls are identical (same start handle, path string, flags, mode
and resolve flags); and when all 4 attempts fail with the transient
`EAGAIN`, the call returns `ENOSYS` (exactly 4 syscalls were issued) so
that `open_impl` falls back to the manual walker instead of surfacing the
transient error. -/
theorem C3_bounded_identical_retries (racy : Bool) (env : Env)
    (sys : Nat → Except IoError Nat) (invalid : Bool) (start : Nat) (path : String)
    (options : OpenOptions) :
    (open_beneath racy env sys invalid start path options).calls.length ≤ 4
    ∧ (∀ c ∈ (open_beneath racy env sys invalid start path options).calls,
        ∀ c' ∈ (open_beneath racy env sys invalid start path options).calls, c = c')
    ∧ (∀ oflags pcs, env.compute_oflags options = .ok oflags → env.c_str path = .ok pcs →
        (∀ j, j < 4 → sys j = .error (.errno .AGAIN)) →
        (open_beneath racy env sys false start path options).result = .error (.errno .NOSYS)
        ∧ (open_beneath racy env sys false start path options).calls.length = 4
        ∧ open_impl racy env sys false start path options =
            env.manually_open start path options) := by
  refine ⟨open_beneath_calls_le_four racy env sys invalid start path options, ?_, ?_⟩
  · intro c hc c' hc'
    rcases open_beneath_calls_shape racy env sys invalid start path options c hc with
      ⟨o1, p1, h1, h1', rfl⟩
    rcases open_beneath_calls_shape racy env sys invalid start path options c' hc' with
      ⟨o2, p2, h2, h2', rfl⟩
    rw [h1] at h2
    rw [h1'] at h2'
    injection h2 with ho
    injection h2' with hp
    subst ho
    subst hp
    rfl
  · intro oflags pcs hco hcs hag
    have hloop := open_beneath_eq_loop racy env sys start path options oflags pcs hco hcs
    set call : Oat2Call := ⟨start, pcs, oflags,
      (if OFlags.contains oflags O_CREAT || OFlags.contains oflags O_TMPFILE then
        options.ext_mode &&& 0o7777 else 0),
      RESOLVE_BENEATH ||| RESOLVE_NO_MAGICLINKS⟩ with hcall
    have hskip := beneath_loop_skip_agains racy env sys start path options call 4 4 0 false []
      le_rfl (fun j hj => by simpa using hag j hj)
    have hout : open_beneath racy env sys false start path options =
        ⟨.error (Errno.NOSYS.io_error), false, List.replicate 4 call, [], false⟩ := by
      rw [hloop, hskip]
      simp [beneath_loop]
    refine ⟨by rw [hout]; rfl, by rw [hout]; simp, ?_⟩
    simp only [open_impl, hout]
    simp [Errno.from_io_error, Errno.io_error]

/-- Witness for C3: four `EAGAIN` responses exhaust the retry budget; four
identical calls were issued and `open_impl` used the manual walker. -/
theorem C3_witness :
    (open_beneath false demoEnv sysAgain false 3 "a/b" demoOptions).result =
      .error (.errno .NOSYS)
    ∧ (open_beneath false demoEnv sysAgain false 3 "a/b" demoOptions).calls.length = 4
    ∧ open_impl false demoEnv sysAgain false 3 "a/b" demoOptions =
        demoEnv.manually_open 3 "a/b" demoOptions :=
  (C3_bounded_identical_retries false demoEnv sysAgain false 3 "a/b" demoOptions).2.2
    0 "a/b" rfl rfl (fun _ _ => rfl)

/-- C6: the permission mode passed to `openat2` is derived from the
caller's creation-mode bits (masked to `0o7777`) exactly when the computed
open flags request creation (`CREATE` or `TMPFILE`); otherwise the mode
passed is empty (0), i.e. the caller's mode bits are ignored. -/
theorem C6_mode_only_when_creating (racy : Bool) (env : Env)
    (sys : Nat → Except IoError Nat) (invalid : Bool) (start : Nat) (path : String)
    (options : OpenOptions) (oflags : Nat)
    (hco : env.compute_oflags options = .ok oflags) :
    ∀ c ∈ (open_beneath racy env sys invalid start path options).calls,
      c.mode = if OFlags.contains oflags O_CREAT || OFlags.contains oflags O_TMPFILE then
        options.ext_mode &&& 0o7777 else 0 := by
  intro c hc
  rcases open_beneath_calls_shape racy env sys invalid start path options c hc with
    ⟨o2, p2, h2, h2', rfl⟩
  rw [hco] at h2
  injection h2 with ho
  subst ho
  rfl

/-- Witness for C6: with creation requested the issued mode is the masked
caller mode (`0o170644 &&& 0o7777 = 0o644`); without creation it is 0. -/
theorem C6_witness :
    (Oat2Call.mk 3 "a/b" O_CREAT 0o644 10).mode =
      (if OFlags.contains O_CREAT O_CREAT || OFlags.contains O_CREAT O_TMPFILE then
        demoCreateOptions.ext_mode &&& 0o7777 else 0)
    ∧ (Oat2Call.mk 3 "a/b" 0 0 10).mode =
      (if OFlags.contains 0 O_CREAT || OFlags.contains 0 O_TMPFILE then
        demoOptions.ext_mode &&& 0o7777 else 0) :=
  ⟨C6_mode_only_when_creating false demoEnv sysOk false 3 "a/b" demoCreateOptions O_CREAT rfl
      (Oat2Call.mk 3 "a/b" O_CREAT 0o644 10) (by decide),
    C6_mode_only_when_creating false demoEnv sysOk false 3 "a/b" demoOptions 0 rfl
      (Oat2Call.mk 3 "a/b" 0 0 10) (by decide)⟩

/-- C10: every `openat2` invocation issued by `open_beneath`, for all
inputs and options, carries exactly the resolve flags
`RESOLVE_BENEATH | RESOLVE_NO_MAGICLINKS` (so magic-link resolution is
always forbidden); and whenever the flags request creation, the mode
passed is the caller's mode masked with `0o7777` (higher bits silently
dropped; the mode never exceeds `0o7777`). -/
theorem C10_resolve_flags_constant (racy : Bool) (env : Env)
    (sys : Nat → Except IoError Nat) (invalid : Bool) (start : Nat) (path : String)
    (options : OpenOptions) :
    ∀ c ∈ (open_beneath racy env sys invalid start path options).calls,
      c.resolve = RESOLVE_BENEATH ||| RESOLVE_NO_MAGICLINKS
      ∧ ((OFlags.contains c.oflags O_CREAT || OFlags.contains c.oflags O_TMPFILE) = true →
          c.mode = options.ext_mode &&& 0o7777)
      ∧ c.mode ≤ 0o7777 := by
  intro c hc
  rcases open_beneath_calls_shape racy env sys invalid start path options c hc with
    ⟨oflags, pcs, hco, hcs, rfl⟩
  refine ⟨rfl, ?_, ?_⟩
  · intro hcr
    simp only at hcr ⊢
    simp [hcr]
  · simp only
    split
    · exact Nat.and_le_right
    · exact Nat.zero_le _

/-- Witness for C10: the call issued for `demoCreateOptions` has resolve
flags `RESOLVE_BENEATH | RESOLVE_NO_MAGICLINKS` and the masked mode. -/
theorem C10_witness :
    (Oat2Call.mk 3 "a/b" O_CREAT 0o644 10).resolve =
      RESOLVE_BENEATH ||| RESOLVE_NO_MAGICLINKS
    ∧ (Oat2Call.mk 3 "a/b" O_CREAT 0o644 10).mode =
        demoCreateOptions.ext_mode &&& 0o7777
    ∧ (Oat2Call.mk 3 "a/b" O_CREAT 0o644 10).mode ≤ 0o7777 := by
  have h := C10_resolve_flags_constant false demoEnv sysOk false 3 "a/b" demoCreateOptions
    (Oat2Call.mk 3 "a/b" O_CREAT 0o644 10) (by decide)
  exact ⟨h.1, h.2.1 (by decide), h.2.2⟩

/-- `check_open` passes (does not panic) exactly when the verifying manual
open succeeds and `is_same_file` returns `Ok(true)`. -/
theorem check_open_pass_iff (env : Env) (start : Nat) (path : String)
    (options : OpenOptions) (file : Nat) :
    check_open_pass env start path options file = true ↔
      ∃ chk, env.manually_open start path (check_options options) = .ok chk ∧
        env.is_same_file file chk = .ok true := by
  unfold check_open_pass
  cases h1 : env.manually_open start path (check_options options) with
  | error e => simp
  | ok chk =>
    cases h2 : env.is_same_file file chk with
    | error e => simp [h2]
    | ok same => simp [h2]

/-- A successful `open_beneath` in a `racy_asserts` build performed exactly
one `check_open` cross-check, and panicked iff the check failed. -/
theorem open_beneath_ok_checks (env : Env) (sys : Nat → Except IoError Nat)
    (invalid : Bool) (start : Nat) (path : String) (options : OpenOptions) (f : Nat)
    (h : (open_beneath true env sys invalid start path options).result = .ok f) :
    (open_beneath true env sys invalid start path options).checks =
      [(start, path, check_options options)]
    ∧ (open_beneath true env sys invalid start path options).panicked =
      ! check_open_pass env start path options f := by
  cases invalid with
  | true => simp [open_beneath] at h
  | false =>
    simp only [open_beneath, Bool.false_eq_true, if_false] at h ⊢
    cases hco : env.compute_oflags options with
    | error e => rw [hco] at h; simp at h
    | ok oflags =>
      rw [hco] at h
      cases hcs : env.c_str path with
      | error e => rw [hcs] at h; simp at h
      | ok pcs =>
        rw [hcs] at h
        simp only at h ⊢
        exact beneath_loop_ok_checks env sys start path options _ 4 0 false [] f h

/-- C9: in `racy_asserts` builds, after every successful native open the
same (capability, path) is re-resolved by the manual walker with `create`,
`create_new` and `truncate` disabled, and the build asserts (panicking
otherwise) that the manual walker succeeded and `is_same_file` found the
two handles to denote the same file; in non-`racy_asserts` builds no
cross-check runs and no assertion can fire. -/
theorem C9_racy_cross_check (env : Env) (sys : Nat → Except IoError Nat)
    (invalid : Bool) (start : Nat) (path : String) (options : OpenOptions) :
    ((open_beneath false env sys invalid start path options).checks = []
      ∧ (open_beneath false env sys invalid start path options).panicked = false)
    ∧ ∀ f, (open_beneath true env sys invalid start path options).result = .ok f →
        (open_beneath true env sys invalid start path options).checks =
          [(start, path,
            { options with create := false, create_new := false, truncate := false })]
        ∧ ((open_beneath true env sys invalid start path options).panicked = false ↔
            ∃ chk, env.manually_open start path
                { options with create := false, create_new := false, truncate := false } =
                  .ok chk
              ∧ env.is_same_file f chk = .ok true) := by
  refine ⟨open_beneath_checks_not_racy env sys invalid start path options, ?_⟩
  intro f h
  have hc := open_beneath_ok_checks env sys invalid start path options f h
  refine ⟨hc.1, ?_⟩
  rw [hc.2]
  rw [Bool.not_eq_eq_eq_not]
  simp only [Bool.not_false]
  exact check_open_pass_iff env start path options f

/-- Witness for C9: a successful racy-build open against `demoEnv`
recorded exactly one cross-check with creation and truncation disabled. -/
theorem C9_witness :
    ((open_beneath false demoEnv sysOk false 3 "a/b" demoOptions).checks = []
      ∧ (open_beneath false demoEnv sysOk false 3 "a/b" demoOptions).panicked = false)
    ∧ ((open_beneath true demoEnv sysOk false 3 "a/b" demoOptions).checks =
        [(3, "a/b",
          { demoOptions with create := false, create_new := false, truncate := false })]
      ∧ ((open_beneath true demoEnv sysOk false 3 "a/b" demoOptions).panicked = false ↔
          ∃ chk, demoEnv.manually_open 3 "a/b"
              { demoOptions with create := false, create_new := false, truncate := false } =
                .ok chk
            ∧ demoEnv.is_same_file 9 chk = .ok true)) := by
  have h := C9_racy_cross_check demoEnv sysOk false 3 "a/b" demoOptions
  exact ⟨h.1, h.2 9 rfl⟩

/-- Counterexample to C7 as stated: `reopen_impl` does not re-enter the
sandboxed resolver on the recovered path. Against a platform where handle
5 recovers the absolute path `/etc/passwd`, `reopen_impl` returns the
handle opened directly by `open_unchecked`, while the sandboxed resolver
rejects the absolute recovered path. -/
theorem C7_counterexample :
    ¬ ∀ (env : REnv) (file : Nat) (options : OpenOptions) (path : String),
        env.file_path file = some path →
        reopen_impl env file options = resolve_spec env env.cwd path options := by
  intro h
  have h5 := h demoREnv 5 demoOptions "/etc/passwd" rfl
  have h1 : reopen_impl demoREnv 5 demoOptions = .ok 42 := rfl
  have h2 : resolve_spec demoREnv demoREnv.cwd "/etc/passwd" demoOptions =
      .error .escape_attempt := rfl
  rw [h1, h2] at h5
  simp at h5

/-- C7 (amended): when path recovery succeeds, `reopen_impl` passes the
recovered path directly to `open_unchecked` against the process's
current-working-directory handle with the new `OpenOptions`, returning an
independent handle; the recovered path is trusted directly, not
re-validated by sandboxed resolution. -/
theorem C7_reopen_trusts_recovered_path (env : REnv) (file : Nat)
    (options : OpenOptions) (path : String) (h : env.file_path file = some path) :
    reopen_impl env file options = env.open_unchecked env.cwd path options := by
  simp [reopen_impl, h]

/-- Witness for C7 (amended): handle 5 recovers `/etc/passwd` and is
reopened through `open_unchecked` against the cwd handle. -/
theorem C7_witness :
    reopen_impl demoREnv 5 demoOptions =
      demoREnv.open_unchecked demoREnv.cwd "/etc/passwd" demoOptions :=
  C7_reopen_trusts_recovered_path demoREnv 5 demoOptions "/etc/passwd" rfl

end CapStd
